import Mathlib

/-!
Shallow embedding of the notification-system worker (Go, package `worker`,
plus `pkg/config`): template renderer, delivery executor with local retry,
dead-letter escalation, and the RocketMQ message handler.

Go strings are byte slices; all strings handled here are ASCII, so they are
modelled as `List Char`.  Go `[]byte` bodies are modelled as `List Nat`.
JSON values are modelled as a tagged tree; Go JSON numbers (float64) never
flow through arithmetic in this code, so they are carried as an opaque `Int`
payload.
-/

namespace NotificationSystem

/-- Model of a Go string (a byte slice; ASCII throughout this system). -/
abbrev GoStr := List Char

/-- Tagged JSON value tree, the dynamic `interface{}` values produced by
`json.Unmarshal` into `map[string]interface{}` and used by the renderer. -/
inductive JsonValue where
  | str : GoStr → JsonValue
  | num : Int → JsonValue
  | bool : Bool → JsonValue
  | null : JsonValue
  | arr : List JsonValue → JsonValue
  | obj : List (GoStr × JsonValue) → JsonValue


/-- Modelled from the spec: the decoded business event
(`pkg/event` is not among the provided sources; the spec gives
`{id, type, timestamp, data: mapping<string,any>}`, and the worker code
reads `evt.ID`, `evt.Type` and `evt.Data[key]`). -/
structure Event where
  id : GoStr
  type : GoStr
  timestamp : Int
  data : List (GoStr × JsonValue)


/-- One routing rule from `pkg/config` (`NotificationConfig`). -/
structure NotificationConfig where
  eventType : GoStr
  queueName : GoStr
  method : GoStr
  url : GoStr
  headers : List (GoStr × GoStr)
  body : List (GoStr × JsonValue)


/-- Go map indexing `m[key]` with the comma-ok idiom (maps have unique keys;
modelled as first-match lookup in an association list). -/
def lookupAssoc : List (GoStr × JsonValue) → GoStr → Option JsonValue
  | [], _ => none
  | (k, v) :: rest, key => if k = key then some v else lookupAssoc rest key

/-- `Config.FindNotificationConfig`: first rule whose `EventType` equals the
event's type, `none` when no rule matches. -/
def FindNotificationConfig : List NotificationConfig → GoStr → Option NotificationConfig
  | [], _ => none
  | n :: rest, eventType =>
    if n.eventType = eventType then some n else FindNotificationConfig rest eventType

/-- Go `strings.Split(s, ".")`: split around every occurrence of `'.'`,
keeping empty pieces. -/
def splitDot : GoStr → List GoStr
  | [] => [[]]
  | c :: rest =>
    if c = '.' then [] :: splitDot rest
    else
      match splitDot rest with
      | [] => [[c]]
      | p :: ps => (c :: p) :: ps

/-- `Worker.resolveValue`: checks whether a string is a placeholder and
resolves it.  Mirrors the Go code byte for byte: the prefix/suffix test,
the slice `val[2 : len(val)-1]` (which drops the first TWO bytes `{$` and
the final `}`), the split on `'.'`, the 3-part `$`/`event` guard, and the
`evt.Data` lookup falling back to the original string. -/
def resolveValue (val : GoStr) (evt : Event) : JsonValue :=
  if ("\x7b$.event.".toList.isPrefixOf val ∧ "\x7d".toList.isSuffixOf val) then
    match splitDot ((val.drop 2).dropLast) with
    | [p0, p1, key] =>
      if (p0 = "$".toList ∧ p1 = "event".toList) then
        match lookupAssoc evt.data key with
        | some v => v
        | none => JsonValue.str val
      else JsonValue.str val
    | _ => JsonValue.str val
  else JsonValue.str val

mutual

/-- `Worker.replacePlaceholders`: structural traversal of the template tree;
strings go through `resolveValue`, maps are rebuilt key by key, slices
element by element, all other scalars pass through unchanged. -/
def replacePlaceholders (evt : Event) : JsonValue → JsonValue
  | JsonValue.str s => resolveValue s evt
  | JsonValue.obj kvs => JsonValue.obj (replaceFields evt kvs)
  | JsonValue.arr xs => JsonValue.arr (replaceElems evt xs)
  | JsonValue.num n => JsonValue.num n
  | JsonValue.bool b => JsonValue.bool b
  | JsonValue.null => JsonValue.null

/-- The map-rebuilding loop of `replacePlaceholders` (`for k, v := range val`). -/
def replaceFields (evt : Event) : List (GoStr × JsonValue) → List (GoStr × JsonValue)
  | [] => []
  | (k, v) :: rest => (k, replacePlaceholders evt v) :: replaceFields evt rest

/-- The slice-rebuilding loop of `replacePlaceholders` (`for i, v := range val`). -/
def replaceElems (evt : Event) : List JsonValue → List JsonValue
  | [] => []
  | v :: rest => replacePlaceholders evt v :: replaceElems evt rest

end

/-- `Worker.renderBody` up to JSON serialization: the rendered template tree
(the Go code then `json.Marshal`s it, which cannot fail on this value type). -/
def renderBody (templateBody : List (GoStr × JsonValue)) (evt : Event) :
    List (GoStr × JsonValue) :=
  replaceFields evt templateBody

/-- Outcome of one `w.Client.Do(req)` call: a transport-level error, or an
HTTP response with its status code and body.  The request sent is the same
on every attempt (method, URL, headers and rendered body are all fixed
before the loop), so the external endpoint's behaviour is modelled as a
function from the attempt index to this outcome. -/
inductive AttemptResult where
  | netErr : GoStr → AttemptResult
  | response : Nat → GoStr → AttemptResult

/-- The error values `processNotification` can return or record:
`networkError` for `"request network error: %w"`, `clientError` for the
terminal `"request failed with client error status %d: %s"`, and
`statusError` for the retryable `"request failed with status %d: %s"`. -/
inductive DeliveryError where
  | networkError : GoStr → DeliveryError
  | clientError : Nat → GoStr → DeliveryError
  | statusError : Nat → GoStr → DeliveryError

/-- Observable trace of the retry loop in `processNotification`: the
`time.Sleep` durations in milliseconds in order, the number of HTTP
requests issued (`w.Client.Do` calls), and the function's return value
(`none` = `nil`, success). -/
structure DeliveryTrace where
  sleeps : List Nat
  attemptsMade : Nat
  result : Option DeliveryError

/-- `maxLocalRetries := 3` in `processNotification`. -/
def maxLocalRetries : Nat := 3

/-- The backoff before attempt `i` (0-based): `2^i * 100` milliseconds
(`time.Duration(math.Pow(2, float64(i))) * 100 * time.Millisecond`;
exact for the small exponents used). -/
def backoffMs (i : Nat) : Nat := 2 ^ i * 100

/-- One-to-one image of the `for i := 0; i < maxLocalRetries; i++` loop in
`processNotification`.  `fuel` is `maxLocalRetries - i`, so `fuel = 0` is
the loop exit returning `lastErr`.  Each iteration sleeps when `i > 0`,
issues the request, then: success on a 2xx status; immediate terminal
return on a 4xx status other than 429; otherwise records the error in
`lastErr` and continues (also on a transport error). -/
def runAttempts (att : Nat → AttemptResult) :
    Nat → Option DeliveryError → List Nat → Nat → DeliveryTrace
  | i, lastErr, sleeps, 0 => ⟨sleeps, i, lastErr⟩
  | i, _, sleeps, fuel + 1 =>
    let sleeps' := if 0 < i then sleeps ++ [backoffMs i] else sleeps
    match att i with
    | AttemptResult.netErr e =>
      runAttempts att (i + 1) (some (DeliveryError.networkError e)) sleeps' fuel
    | AttemptResult.response status body =>
      if 200 ≤ status ∧ status < 300 then
        ⟨sleeps', i + 1, none⟩
      else if 400 ≤ status ∧ status < 500 ∧ status ≠ 429 then
        ⟨sleeps', i + 1, some (DeliveryError.clientError status body)⟩
      else
        runAttempts att (i + 1) (some (DeliveryError.statusError status body)) sleeps' fuel

/-- The retry loop of `Worker.processNotification` run from the start
(the body rendering that precedes it is `renderBody`; rendering cannot fail
on this value type, so the loop is always reached). -/
def processNotification (att : Nat → AttemptResult) : DeliveryTrace :=
  runAttempts att 0 none [] maxLocalRetries

/-- `consumer.ConsumeResult`: the disposition the handler returns to
RocketMQ for the whole callback invocation. -/
inductive ConsumeResult where
  | ConsumeSuccess
  | ConsumeRetryLater
deriving DecidableEq

/-- `primitive.MessageExt` as read by the worker: topic, message id, raw
body bytes, `ReconsumeTimes`, and the property map. -/
structure QueueMessage where
  topic : GoStr
  msgId : GoStr
  body : List Nat
  reconsumeTimes : Nat
  properties : List (GoStr × GoStr)

/-- A `primitive.Message` handed to `DLQProducer.SendSync`. -/
structure DLQMessage where
  topic : GoStr
  body : List Nat
  properties : List (GoStr × GoStr)

/-- `Worker.sendToDLQ`, message construction part: topic
`fmt.Sprintf("DLQ_%s", msg.Topic)`, the original body bytes, and the
original properties (`dlqMsg.WithProperties(msg.GetProperties())`). -/
def sendToDLQ (msg : QueueMessage) : DLQMessage :=
  ⟨"DLQ_".toList ++ msg.topic, msg.body, msg.properties⟩

/-- Observable side effects of one `HandleMessage` invocation:
`dlqSends` — the messages passed to `DLQProducer.SendSync`, in order;
`httpCalls` — the number of HTTP requests issued;
`processed` — ids of the messages whose loop body ran. -/
structure Effects where
  dlqSends : List DLQMessage
  httpCalls : Nat
  processed : List GoStr

/-- Sequencing of effects across loop iterations. -/
def combineEffects (a b : Effects) : Effects :=
  ⟨a.dlqSends ++ b.dlqSends, a.httpCalls + b.httpCalls, a.processed ++ b.processed⟩

/-- The worker's environment: configuration plus the externally determined
outcomes of its effectful calls — `decode` for `json.Unmarshal` of a body
into an `Event`, `dlqSendOk` for whether `DLQProducer.SendSync` succeeds,
and `httpAttempt` for the endpoint's response to each request of an
event's delivery. -/
structure HandlerEnv where
  maxRetries : Nat
  notifications : List NotificationConfig
  decode : List Nat → Option Event
  dlqSendOk : DLQMessage → Bool
  httpAttempt : Event → Nat → AttemptResult

/-- Whether a loop iteration of `HandleMessage` executed a `return`
statement (ending the whole callback) or fell through to the next message. -/
inductive LoopStep where
  | ret : ConsumeResult → LoopStep
  | cont : LoopStep

/-- The body of `HandleMessage`'s `for _, msg := range msgs` loop for one
message: the `ReconsumeTimes >= MaxRetries` dead-letter check (publish
success returns `ConsumeSuccess`, failure returns `ConsumeRetryLater`),
then `json.Unmarshal` (failure returns `ConsumeSuccess`), then
`FindNotificationConfig` (no rule returns `ConsumeSuccess`), then
`processNotification` (error returns `ConsumeRetryLater`, success falls
through to the next message). -/
def handleOne (env : HandlerEnv) (msg : QueueMessage) : LoopStep × Effects :=
  if env.maxRetries ≤ msg.reconsumeTimes then
    let dlqMsg := sendToDLQ msg
    if env.dlqSendOk dlqMsg then
      (LoopStep.ret ConsumeResult.ConsumeSuccess, ⟨[dlqMsg], 0, [msg.msgId]⟩)
    else
      (LoopStep.ret ConsumeResult.ConsumeRetryLater, ⟨[dlqMsg], 0, [msg.msgId]⟩)
  else
    match env.decode msg.body with
    | none => (LoopStep.ret ConsumeResult.ConsumeSuccess, ⟨[], 0, [msg.msgId]⟩)
    | some evt =>
      match FindNotificationConfig env.notifications evt.type with
      | none => (LoopStep.ret ConsumeResult.ConsumeSuccess, ⟨[], 0, [msg.msgId]⟩)
      | some _ =>
        let t := processNotification (env.httpAttempt evt)
        match t.result with
        | none => (LoopStep.cont, ⟨[], t.attemptsMade, [msg.msgId]⟩)
        | some _ =>
          (LoopStep.ret ConsumeResult.ConsumeRetryLater, ⟨[], t.attemptsMade, [msg.msgId]⟩)

/-- `Worker.HandleMessage`: iterates `handleOne` over the delivered batch;
a `return` inside the loop ends the callback immediately (remaining
messages are not processed), and falling off the loop returns
`ConsumeSuccess`.  The Go function's second return value (`error`) is
`nil` on every path and is omitted.  The result is the returned
disposition paired with the accumulated effects. -/
def HandleMessage (env : HandlerEnv) : List QueueMessage → ConsumeResult × Effects
  | [] => (ConsumeResult.ConsumeSuccess, ⟨[], 0, []⟩)
  | msg :: rest =>
    match handleOne env msg with
    | (LoopStep.ret r, eff) => (r, eff)
    | (LoopStep.cont, eff) =>
      let tail := HandleMessage env rest
      (tail.1, combineEffects eff tail.2)

/-! Helper lemmas about the retry loop. -/

theorem runAttempts_zero (att : Nat → AttemptResult) (i : Nat) (e : Option DeliveryError)
    (s : List Nat) : runAttempts att i e s 0 = ⟨s, i, e⟩ := rfl

theorem runAttempts_succ (att : Nat → AttemptResult) (i : Nat) (e : Option DeliveryError)
    (s : List Nat) (fuel : Nat) :
    runAttempts att i e s (fuel + 1) =
      (match att i with
       | AttemptResult.netErr err =>
         runAttempts att (i + 1) (some (DeliveryError.networkError err))
           (if 0 < i then s ++ [backoffMs i] else s) fuel
       | AttemptResult.response st b =>
         if 200 ≤ st ∧ st < 300 then
           ⟨if 0 < i then s ++ [backoffMs i] else s, i + 1, none⟩
         else if 400 ≤ st ∧ st < 500 ∧ st ≠ 429 then
           ⟨if 0 < i then s ++ [backoffMs i] else s, i + 1,
             some (DeliveryError.clientError st b)⟩
         else
           runAttempts att (i + 1) (some (DeliveryError.statusError st b))
             (if 0 < i then s ++ [backoffMs i] else s) fuel) := rfl

theorem runAttempts_succ_net (att : Nat → AttemptResult) (i : Nat) (e : Option DeliveryError)
    (s : List Nat) (fuel : Nat) (err : GoStr) (h : att i = AttemptResult.netErr err) :
    runAttempts att i e s (fuel + 1) =
      runAttempts att (i + 1) (some (DeliveryError.networkError err))
        (if 0 < i then s ++ [backoffMs i] else s) fuel := by
  rw [runAttempts_succ, h]

theorem runAttempts_succ_resp (att : Nat → AttemptResult) (i : Nat) (e : Option DeliveryError)
    (s : List Nat) (fuel : Nat) (st : Nat) (b : GoStr)
    (h : att i = AttemptResult.response st b) :
    runAttempts att i e s (fuel + 1) =
      (if 200 ≤ st ∧ st < 300 then
        ⟨if 0 < i then s ++ [backoffMs i] else s, i + 1, none⟩
       else if 400 ≤ st ∧ st < 500 ∧ st ≠ 429 then
        ⟨if 0 < i then s ++ [backoffMs i] else s, i + 1, some (DeliveryError.clientError st b)⟩
       else
        runAttempts att (i + 1) (some (DeliveryError.statusError st b))
          (if 0 < i then s ++ [backoffMs i] else s) fuel) := by
  rw [runAttempts_succ, h]

theorem runAttempts_attempts_le (att : Nat → AttemptResult) :
    ∀ (fuel i : Nat) (e : Option DeliveryError) (s : List Nat),
      i ≤ (runAttempts att i e s fuel).attemptsMade := by
  intro fuel
  induction fuel with
  | zero => intro i e s; simp [runAttempts_zero]
  | succ n ih =>
    intro i e s
    rcases h : att i with e' | ⟨st, b⟩
    · rw [runAttempts_succ_net att i e s n e' h]
      exact le_trans (Nat.le_succ i) (ih (i + 1) _ _)
    · rw [runAttempts_succ_resp att i e s n st b h]
      split_ifs <;> first | simp | exact le_trans (Nat.le_succ i) (ih (i + 1) _ _)

theorem runAttempts_attempts_lt (att : Nat → AttemptResult) :
    ∀ (fuel i : Nat) (e : Option DeliveryError) (s : List Nat), 0 < fuel →
      i + 1 ≤ (runAttempts att i e s fuel).attemptsMade := by
  intro fuel
  cases fuel with
  | zero => intro i e s hf; omega
  | succ n =>
    intro i e s _
    rcases h : att i with e' | ⟨st, b⟩
    · rw [runAttempts_succ_net att i e s n e' h]
      exact runAttempts_attempts_le att n (i + 1) _ _
    · rw [runAttempts_succ_resp att i e s n st b h]
      split_ifs <;> first | simp | exact runAttempts_attempts_le att n (i + 1) _ _

theorem trace_shape (att : Nat → AttemptResult) :
    1 ≤ (processNotification att).attemptsMade ∧
    (processNotification att).attemptsMade ≤ 3 ∧
    (processNotification att).sleeps
      = List.take ((processNotification att).attemptsMade - 1) [200, 400] := by
  rcases h0 : att 0 with e0 | ⟨s0, b0⟩ <;>
    rcases h1 : att 1 with e1 | ⟨s1, b1⟩ <;>
      rcases h2 : att 2 with e2 | ⟨s2, b2⟩ <;>
        simp [processNotification, maxLocalRetries, runAttempts_succ, runAttempts_zero,
          h0, h1, h2, backoffMs] <;>
        split_ifs <;> simp

theorem success_immediate (att : Nat → AttemptResult) (s : Nat) (b : GoStr)
    (h0 : att 0 = AttemptResult.response s b) (h2 : 200 ≤ s) (h3 : s < 300) :
    processNotification att = ⟨[], 1, none⟩ := by
  simp [processNotification, maxLocalRetries, runAttempts_succ, h0]
  intro h
  omega

theorem terminal_client_error (att : Nat → AttemptResult) (s : Nat) (b : GoStr)
    (h0 : att 0 = AttemptResult.response s b) (h4 : 400 ≤ s) (h5 : s < 500) (h9 : s ≠ 429) :
    processNotification att = ⟨[], 1, some (DeliveryError.clientError s b)⟩ := by
  have hu : processNotification att = runAttempts att 0 none [] (2 + 1) := rfl
  rw [hu, runAttempts_succ]
  simp only [h0]
  rw [if_neg (by omega), if_pos ⟨h4, h5, h9⟩]
  simp

theorem retryable_second_attempt (att : Nat → AttemptResult) (s : Nat) (b : GoStr)
    (h0 : att 0 = AttemptResult.response s b) (hns : ¬(200 ≤ s ∧ s < 300))
    (hnt : ¬(400 ≤ s ∧ s < 500 ∧ s ≠ 429)) :
    2 ≤ (processNotification att).attemptsMade := by
  have hu : processNotification att = runAttempts att 0 none [] (2 + 1) := rfl
  rw [hu, runAttempts_succ]
  simp only [h0]
  rw [if_neg hns, if_neg hnt]
  simpa using runAttempts_attempts_lt att 2 1 _ _ (by omega)

/-- The error `processNotification` records in `lastErr` for a retryable
attempt outcome: `"request network error"` for a transport error, otherwise
`"request failed with status %d"` with the response status and body. -/
def recordOf : AttemptResult → DeliveryError
  | AttemptResult.netErr e => DeliveryError.networkError e
  | AttemptResult.response s b => DeliveryError.statusError s b

/-- An attempt outcome that makes the loop continue to the next attempt:
any transport error, or a response status that is neither a 2xx success
nor a terminal non-429 4xx. -/
def retryableOutcome : AttemptResult → Prop
  | AttemptResult.netErr _ => True
  | AttemptResult.response s _ => ¬(200 ≤ s ∧ s < 300) ∧ ¬(400 ≤ s ∧ s < 500 ∧ s ≠ 429)

theorem last_error_returned (att : Nat → AttemptResult)
    (r0 : retryableOutcome (att 0)) (r1 : retryableOutcome (att 1))
    (r2 : retryableOutcome (att 2)) :
    processNotification att = ⟨[200, 400], 3, some (recordOf (att 2))⟩ := by
  rcases h0 : att 0 with e0 | ⟨s0, b0⟩ <;> rcases h1 : att 1 with e1 | ⟨s1, b1⟩ <;>
    rcases h2 : att 2 with e2 | ⟨s2, b2⟩ <;>
      rw [h0] at r0 <;> rw [h1] at r1 <;> rw [h2] at r2 <;>
      simp only [retryableOutcome] at r0 r1 r2 <;>
      simp [processNotification, maxLocalRetries, runAttempts_succ, runAttempts_zero,
        h0, h1, h2, backoffMs, recordOf] <;>
      split_ifs <;> first | rfl | omega

/-! Helper lemmas about the template renderer. -/

theorem splitDot_dot_cons (cs : List Char) : splitDot ('.' :: cs) = [] :: splitDot cs := by
  simp [splitDot]

/-- The placeholder resolver never substitutes anything: `val[2 : len-1]`
strips the two bytes `\x7b$`, so the split path always starts with an empty
segment, and the `parts[0] == "$"` guard can never hold.  Every string is
returned verbatim. -/
theorem resolveValue_eq_str (val : GoStr) (evt : Event) :
    resolveValue val evt = JsonValue.str val := by
  unfold resolveValue
  split
  · next h =>
    obtain ⟨hpre, hsuf⟩ := h
    obtain ⟨t, ht⟩ := List.isPrefixOf_iff_prefix.mp hpre
    have hval : val = '\x7b' :: '$' :: '.' :: 'e' :: 'v' :: 'e' :: 'n' :: 't' :: '.' :: t := by
      rw [← ht]; rfl
    subst hval
    have hpath :
        ((('\x7b' :: '$' :: '.' :: 'e' :: 'v' :: 'e' :: 'n' :: 't' :: '.' :: t).drop 2).dropLast)
          = '.' :: 'e' :: 'v' :: 'e' :: 'n' :: 't' :: ('.' :: t).dropLast := rfl
    rw [hpath, splitDot_dot_cons]
    rcases splitDot ('e' :: 'v' :: 'e' :: 'n' :: 't' :: ('.' :: t).dropLast) with
      _ | ⟨a, _ | ⟨b, _ | ⟨c, ps⟩⟩⟩ <;> simp
  · rfl

/-! Concrete fixtures used by claim theorems and witnesses. -/

/-- A routing rule for event type `order.created`. -/
def ruleOrder : NotificationConfig :=
  ⟨"order.created".toList, "ORDER_TOPIC".toList, "POST".toList,
   "http://api.example.com/notify".toList, [], []⟩

/-- The event the fixture decoder yields for body `[1]`. -/
def evtOrder : Event := ⟨"e2".toList, "order.created".toList, 0, []⟩

/-- Fixture environment: `maxRetries` 16, one rule, a decoder that accepts
only the body `[1]`, an always-succeeding dead-letter producer, and an
endpoint that always answers 500. -/
def envFix : HandlerEnv :=
  ⟨16, [ruleOrder],
   fun b => if b = [1] then some evtOrder else none,
   fun _ => true,
   fun _ _ => AttemptResult.response 500 []⟩

/-- A message whose body `[0]` fails to decode. -/
def msgBad : QueueMessage := ⟨"ORDER_TOPIC".toList, "m1".toList, [0], 0, []⟩

/-- A message whose body `[1]` decodes to `evtOrder` and whose delivery
fails with 500 on every attempt. -/
def msgGood : QueueMessage := ⟨"ORDER_TOPIC".toList, "m2".toList, [1], 0, []⟩

/-- The spec's renderer example event: `data = {"user_id": "42"}`. -/
def evtReg : Event :=
  ⟨"e1".toList, "registration".toList, 0, [("user_id".toList, JsonValue.str "42".toList)]⟩

/-- An event carrying a numeric `user_id` field. -/
def evtNum : Event :=
  ⟨"e3".toList, "payment".toList, 0, [("user_id".toList, JsonValue.num 42)]⟩

/-- Fixture environment whose decoder always yields `evtReg`, whose event
type has no routing rule. -/
def envNoRule : HandlerEnv :=
  ⟨16, [ruleOrder], fun _ => some evtReg, fun _ => true,
   fun _ _ => AttemptResult.response 200 []⟩

/-! The claims. -/

/-- C1: refuted on the code (code bug).  For the two-message batch
`[msgBad, msgGood]`, where `msgBad` fails to decode and `msgGood` alone
would resolve to `RetryLater`, the handler returns `ConsumeSuccess` after
the first message: only `m1` was processed, no HTTP call was made, and
the batch is acknowledged although it contains a message that would choose
`RetryLater`.  The `return` statements inside the
`for _, msg := range msgs` loop end the whole callback. -/
theorem C1_batch_early_return :
    HandleMessage envFix [msgBad, msgGood]
      = (ConsumeResult.ConsumeSuccess, ⟨[], 0, ["m1".toList]⟩) ∧
    (handleOne envFix msgGood).1 = LoopStep.ret ConsumeResult.ConsumeRetryLater :=
  ⟨rfl, rfl⟩

/-- C2: counterexample.  Status 402 is not in `{400,401,403,404}`, so per
the claim it should be retryable and lead to a further attempt; the code
instead returns immediately after a single attempt with the terminal
client-error failure. -/
theorem C2_counterexample_402_terminal :
    processNotification (fun _ => AttemptResult.response 402 [])
      = ⟨[], 1, some (DeliveryError.clientError 402 [])⟩ ∧
    ¬ 2 ≤ (processNotification (fun _ => AttemptResult.response 402 [])).attemptsMade :=
  ⟨rfl, by decide⟩

/-- C2 (amended): the terminal client-error set is all of `[400,500)`
except 429 — such a status on the first attempt returns the non-retryable
client error immediately with no further attempt; every other non-2xx
status leads to a further attempt. -/
theorem C2_terminal_set_amended (att : Nat → AttemptResult) (s : Nat) (b : GoStr)
    (h0 : att 0 = AttemptResult.response s b) (hns : ¬(200 ≤ s ∧ s < 300)) :
    ((400 ≤ s ∧ s < 500 ∧ s ≠ 429) →
       processNotification att = ⟨[], 1, some (DeliveryError.clientError s b)⟩) ∧
    (¬(400 ≤ s ∧ s < 500 ∧ s ≠ 429) → 2 ≤ (processNotification att).attemptsMade) := by
  constructor
  · rintro ⟨h4, h5, h9⟩
    exact terminal_client_error att s b h0 h4 h5 h9
  · intro hnt
    exact retryable_second_attempt att s b h0 hns hnt

/-- C2 witness: a 503 first response leads to a further attempt. -/
theorem C2_terminal_set_amended_witness :
    2 ≤ (processNotification (fun _ => AttemptResult.response 503 [])).attemptsMade :=
  (C2_terminal_set_amended (fun _ => AttemptResult.response 503 []) 503 [] rfl
    (by decide)).2 (by decide)

/-- C3: refuted on the code (code bug).  The string `"{$.event.user_id}"`
exactly matches the placeholder grammar and the field `user_id` is present
in `event.data`, yet the resolver returns the string verbatim instead of
the field value: the slice `val[2:len(val)-1]` drops `{$` rather than `{`,
so the `parts[0] == "$"` guard never holds. -/
theorem C3_exact_placeholder_not_resolved :
    lookupAssoc evtReg.data "user_id".toList = some (JsonValue.str "42".toList) ∧
    resolveValue "\x7b$.event.user_id\x7d".toList evtReg
      = JsonValue.str "\x7b$.event.user_id\x7d".toList :=
  ⟨rfl, rfl⟩

/-- C4: confirmed.  The executor makes between 1 and 3 attempts, the sleep
trace is exactly the prefix of `[200ms, 400ms]` matching the number of
attempts after the first (`2^i * 100` ms = 200 for attempt 2 and 400 for
attempt 3), and a 2xx first response returns success immediately: one
attempt, no sleeps. -/
theorem C4_retry_schedule (att : Nat → AttemptResult) :
    1 ≤ (processNotification att).attemptsMade ∧
    (processNotification att).attemptsMade ≤ 3 ∧
    (processNotification att).sleeps
      = List.take ((processNotification att).attemptsMade - 1) [200, 400] ∧
    backoffMs 1 = 200 ∧ backoffMs 2 = 400 ∧
    (∀ s b, att 0 = AttemptResult.response s b → 200 ≤ s → s < 300 →
      processNotification att = ⟨[], 1, none⟩) := by
  refine ⟨(trace_shape att).1, (trace_shape att).2.1, (trace_shape att).2.2, rfl, rfl, ?_⟩
  intro s b h0 h2 h3
  exact success_immediate att s b h0 h2 h3

/-- C4 witness: a 204 response on the first attempt gives one attempt, no
sleep, success. -/
theorem C4_retry_schedule_witness :
    processNotification (fun _ => AttemptResult.response 204 []) = ⟨[], 1, none⟩ :=
  (C4_retry_schedule (fun _ => AttemptResult.response 204 [])).2.2.2.2.2 204 [] rfl
    (by decide) (by decide)

/-- C5: confirmed.  For a single delivered message the handler follows the
spec state machine: at or above the redelivery threshold it escalates with
no HTTP call (acknowledging exactly when the dead-letter publish
succeeds, `RetryLater` when it fails); below the threshold a decode
failure acknowledges with no effects, a missing rule acknowledges with no
HTTP call and no dead-letter publish, delivery success acknowledges, and
delivery failure retries later (no dead-letter publish in either). -/
theorem C5_single_message_state_machine (env : HandlerEnv) (msg : QueueMessage) :
    (env.maxRetries ≤ msg.reconsumeTimes →
      ((env.dlqSendOk (sendToDLQ msg) = true →
         HandleMessage env [msg]
           = (ConsumeResult.ConsumeSuccess, ⟨[sendToDLQ msg], 0, [msg.msgId]⟩)) ∧
       (env.dlqSendOk (sendToDLQ msg) = false →
         HandleMessage env [msg]
           = (ConsumeResult.ConsumeRetryLater, ⟨[sendToDLQ msg], 0, [msg.msgId]⟩)))) ∧
    (msg.reconsumeTimes < env.maxRetries →
      ((env.decode msg.body = none →
         HandleMessage env [msg] = (ConsumeResult.ConsumeSuccess, ⟨[], 0, [msg.msgId]⟩)) ∧
       (∀ evt, env.decode msg.body = some evt →
         ((FindNotificationConfig env.notifications evt.type = none →
            HandleMessage env [msg]
              = (ConsumeResult.ConsumeSuccess, ⟨[], 0, [msg.msgId]⟩)) ∧
          (∀ cfg, FindNotificationConfig env.notifications evt.type = some cfg →
            (((processNotification (env.httpAttempt evt)).result = none →
               HandleMessage env [msg]
                 = (ConsumeResult.ConsumeSuccess,
                    ⟨[], (processNotification (env.httpAttempt evt)).attemptsMade,
                      [msg.msgId]⟩)) ∧
             (∀ e, (processNotification (env.httpAttempt evt)).result = some e →
               HandleMessage env [msg]
                 = (ConsumeResult.ConsumeRetryLater,
                    ⟨[], (processNotification (env.httpAttempt evt)).attemptsMade,
                      [msg.msgId]⟩)))))))) := by
  constructor
  · intro hge
    constructor
    · intro hok
      simp [HandleMessage, handleOne, hge, hok]
    · intro hbad
      simp [HandleMessage, handleOne, hge, hbad]
  · intro hlt
    have hnot : ¬ env.maxRetries ≤ msg.reconsumeTimes := by omega
    refine ⟨?_, ?_⟩
    · intro hdec
      simp [HandleMessage, handleOne, hnot, hdec]
    · intro evt hdec
      refine ⟨?_, ?_⟩
      · intro hfind
        simp [HandleMessage, handleOne, hnot, hdec, hfind]
      · intro cfg hfind
        refine ⟨?_, ?_⟩
        · intro hres
          simp [HandleMessage, handleOne, hnot, hdec, hfind, hres, combineEffects]
        · intro e hres
          simp [HandleMessage, handleOne, hnot, hdec, hfind, hres]

/-- C5 witness: below the threshold, decodable body, but no rule for the
event type: acknowledged with no HTTP call and no dead-letter publish. -/
theorem C5_single_message_state_machine_witness :
    msgBad.reconsumeTimes < envNoRule.maxRetries ∧
    envNoRule.decode msgBad.body = some evtReg ∧
    FindNotificationConfig envNoRule.notifications evtReg.type = none ∧
    HandleMessage envNoRule [msgBad]
      = (ConsumeResult.ConsumeSuccess, ⟨[], 0, ["m1".toList]⟩) :=
  ⟨by decide, rfl, rfl,
    (((C5_single_message_state_machine envNoRule msgBad).2 (by decide)).2 evtReg rfl).1 rfl⟩

/-- C6: confirmed.  A placeholder string whose field is absent from
`event.data` is returned unchanged as the literal string — never null and
never an error. -/
theorem C6_missing_field_returns_placeholder (field : GoStr) (evt : Event)
    (habsent : lookupAssoc evt.data field = none) :
    resolveValue ("\x7b$.event.".toList ++ field ++ ['\x7d']) evt
      = JsonValue.str ("\x7b$.event.".toList ++ field ++ ['\x7d']) :=
  resolveValue_eq_str _ _

/-- C6 witness: the spec's example `{$.event.missing}` against data
containing only `user_id`. -/
theorem C6_missing_field_returns_placeholder_witness :
    lookupAssoc evtReg.data "missing".toList = none ∧
    resolveValue ("\x7b$.event.".toList ++ "missing".toList ++ ['\x7d']) evtReg
      = JsonValue.str ("\x7b$.event.".toList ++ "missing".toList ++ ['\x7d']) :=
  ⟨rfl, C6_missing_field_returns_placeholder "missing".toList evtReg rfl⟩

/-- C7: refuted on the code (code bug).  The structural part of the claim
holds (keys preserved, arrays elementwise, non-string scalars unchanged),
but the type-preserving substitution never happens: the spec's template
`{"id": "{$.event.user_id}", "n": 5}` against numeric data
`{"user_id": 42}` renders with the placeholder string intact instead of
substituting the JSON number 42. -/
theorem C7_render_no_substitution :
    renderBody
        [("id".toList, JsonValue.str "\x7b$.event.user_id\x7d".toList),
         ("n".toList, JsonValue.num 5)] evtNum
      = [("id".toList, JsonValue.str "\x7b$.event.user_id\x7d".toList),
         ("n".toList, JsonValue.num 5)] ∧
    lookupAssoc evtNum.data "user_id".toList = some (JsonValue.num 42) :=
  ⟨rfl, rfl⟩

/-- C8: confirmed.  The dead-letter message is published to
`"DLQ_" ++ originalTopic` and carries the original body bytes and the
original property map unmodified. -/
theorem C8_dlq_topic_body_properties (msg : QueueMessage) :
    (sendToDLQ msg).topic = "DLQ_".toList ++ msg.topic ∧
    (sendToDLQ msg).body = msg.body ∧
    (sendToDLQ msg).properties = msg.properties :=
  ⟨rfl, rfl, rfl⟩

/-- C9: confirmed.  When all three attempts are retryable failures (no 2xx
and no terminal non-429 4xx), the executor returns the error recorded on
the last attempt, after exactly three attempts. -/
theorem C9_returns_last_error (att : Nat → AttemptResult)
    (r0 : retryableOutcome (att 0)) (r1 : retryableOutcome (att 1))
    (r2 : retryableOutcome (att 2)) :
    (processNotification att).result = some (recordOf (att 2)) ∧
    (processNotification att).attemptsMade = 3 := by
  rw [last_error_returned att r0 r1 r2]
  exact ⟨rfl, rfl⟩

/-- C9 witness: responses 500, 501, 502 yield the error for 502 — the
last, not the first. -/
theorem C9_returns_last_error_witness :
    (processNotification (fun i => AttemptResult.response (500 + i) [])).result
      = some (DeliveryError.statusError 502 []) :=
  (C9_returns_last_error (fun i => AttemptResult.response (500 + i) [])
    (by simp only [retryableOutcome]; omega)
    (by simp only [retryableOutcome]; omega)
    (by simp only [retryableOutcome]; omega)).1

/-- C10: confirmed.  An empty batch acknowledges: `ConsumeSuccess` with no
dead-letter publish, no HTTP call, and no message processed (and the Go
function's `error` result is `nil` on every path). -/
theorem C10_empty_batch_acknowledge (env : HandlerEnv) :
    HandleMessage env [] = (ConsumeResult.ConsumeSuccess, ⟨[], 0, []⟩) :=
  rfl

end NotificationSystem
